import Mathlib

/-
Verification of the Express CRUD service (express-app/app.js) and the
Lambda request-echo function against its natural-language specification.

The embedding is shallow: each route handler of app.js becomes a Lean
function from its request inputs, a database-behaviour oracle and the
current database state to the new database state plus a trace of events
(connection acquire, statement submission, response, connection release).
JS numbers are modelled as exact decimals (mantissa and scale), JS
strings as Lean strings; an absent body field is `Option.none`, JSON null
is `Value.vNull`.
-/

namespace App

/-- A JavaScript value as it appears in request bodies and database rows:
a number, a string, or null. Numbers are represented exactly as the
decimals occurring on the JSON wire: `vNum m e` denotes m / 10^e (so
150.5 is `vNum 1505 1`); the program never performs arithmetic on them,
it only stores and compares them. -/
inductive Value where
  | vNum (m : Int) (e : Nat)
  | vStr (s : String)
  | vNull
deriving DecidableEq

/-- A row of the orders table, columns as in app.js: ord_no, purch_amt,
ord_date, customer_id. -/
structure OrderRow where
  ord_no : Value
  purch_amt : Value
  ord_date : Value
  customer_id : Value
deriving DecidableEq

/-- Database state: the orders table and the customer table (whose columns
the service never inspects, so a customer row is an opaque list of values). -/
structure DB where
  orders : List OrderRow
  customers : List (List Value)
deriving DecidableEq

/-- The JSON (or plain-text) body of an HTTP response produced by a handler. -/
inductive RespBody where
  | custRows (rs : List (List Value))
  | rows (rs : List OrderRow)
  | row (r : OrderRow)
  | msg (m : String)
  | msgWithId (m : String) (orderId : Nat)
  | errList (es : List (String × String))
  | errText (t : String)
deriving DecidableEq

/-- Observable events of one handler execution, in program order:
`acquire` = pool.getConnection() succeeded, `query` = a statement with the
given SQL text and bound parameters was submitted to the database,
`respond` = the HTTP response was sent, `release` = conn.end(). -/
inductive Event where
  | acquire
  | query (text : String) (params : List Value)
  | respond (status : Nat) (body : RespBody)
  | release
deriving DecidableEq

/-- Oracle for the database layer of one request: whether
pool.getConnection() succeeds, whether the (single) statement execution
succeeds, and the error text reported on failure. -/
structure DbBehavior where
  acquireOk : Bool
  queryOk : Bool
  errText : String
deriving DecidableEq

/-- The JSON body of a POST /orders or PUT /orders/:id request; `none`
means the field is absent (JS undefined). -/
structure OrderBody where
  ord_no : Option Value
  purch_amt : Option Value
  ord_date : Option Value
  customer_id : Option Value
deriving DecidableEq

/-- Split a character list at every occurrence of the separator, like
String.prototype.split on a single-character separator. -/
def splitOnChar (c : Char) : List Char → List (List Char)
  | [] => [[]]
  | x :: xs =>
    match splitOnChar c xs with
    | [] => [[]]
    | h :: t => if x == c then [] :: h :: t else (x :: h) :: t

/-- Drop one leading sign character. -/
def stripSign : List Char → List Char
  | '+' :: r => r
  | '-' :: r => r
  | l => l

/-- The natural number denoted by a list of decimal digit characters. -/
def digitsToNat (l : List Char) : Nat :=
  l.foldl (fun acc c => acc * 10 + (c.toNat - 48)) 0

/-- Decimal-string check modelling the validator library regex
[+-]?([0-9]*[.])?[0-9]+ used by body(...).isNumeric(). -/
def isNumericStr (s : String) : Bool :=
  match splitOnChar '.' (stripSign s.data) with
  | [a] => !a.isEmpty && a.all Char.isDigit
  | [a, b] => a.all Char.isDigit && !b.isEmpty && b.all Char.isDigit
  | _ => false

/-- Decimal-string check modelling body(...).isFloat() of the validator
library (an optionally signed decimal with digits on at least one side of
the dot; exponent forms are not needed by any claim). -/
def isFloatStr (s : String) : Bool :=
  match splitOnChar '.' (stripSign s.data) with
  | [a] => !a.isEmpty && a.all Char.isDigit
  | [a, b] => !(a.isEmpty && b.isEmpty) && a.all Char.isDigit && b.all Char.isDigit
  | _ => false

/-- Calendar-date check modelling body(...).isISO8601() on the common
YYYY-MM-DD form used by this API. -/
def isISO8601Str (s : String) : Bool :=
  match splitOnChar '-' s.data with
  | [y, m, d] =>
    y.length == 4 && y.all Char.isDigit &&
    m.length == 2 && m.all Char.isDigit &&
    d.length == 2 && d.all Char.isDigit &&
    (let mv := digitsToNat m
     let dv := digitsToNat d
     decide (1 ≤ mv ∧ mv ≤ 12 ∧ 1 ≤ dv ∧ dv ≤ 31))
  | _ => false

/-- body(field).isNumeric() on an optional JS value: a number passes, a
string passes when it is a decimal string, an absent field or null fails
(the validator stringifies them to the empty string). -/
def isNumericV : Option Value → Bool
  | some (.vNum _ _) => true
  | some (.vStr s) => isNumericStr s
  | _ => false

/-- body(field).isFloat() on an optional JS value. -/
def isFloatV : Option Value → Bool
  | some (.vNum _ _) => true
  | some (.vStr s) => isFloatStr s
  | _ => false

/-- body(field).isISO8601() on an optional JS value. -/
def isISO8601V : Option Value → Bool
  | some (.vStr s) => isISO8601Str s
  | _ => false

/-- body(field).notEmpty() on an optional JS value: fails on an absent
field, null, or the empty string. -/
def notEmptyV : Option Value → Bool
  | some (.vStr s) => s ≠ ""
  | some (.vNum _ _) => true
  | _ => false

/-- The four validation rules of POST /orders (and PUT /orders/:id), in
declaration order, producing the (field, message) violation list that
validationResult(req).array() yields. -/
def postValidation (b : OrderBody) : List (String × String) :=
  (if isNumericV b.ord_no then [] else [("ord_no", "Order number must be numeric")]) ++
  (if isFloatV b.purch_amt then [] else [("purch_amt", "Purchase amount must be a valid number")]) ++
  (if isISO8601V b.ord_date then [] else [("ord_date", "Order date must be a valid date")]) ++
  (if notEmptyV b.customer_id then [] else [("customer_id", "Customer ID is required")])

/-- The single validation rule of PATCH /orders/:id:
body(purch_amt).optional().isFloat() — skipped entirely when the field is
absent. -/
def patchValidation (purch_amt : Option Value) : List (String × String) :=
  match purch_amt with
  | none => []
  | some v => if isFloatV (some v) then [] else [("purch_amt", "Purchase amount must be a valid number")]

/-- How the mariadb driver binds a JS body field as a statement parameter:
an absent field (undefined) is bound as SQL NULL. -/
def toSqlParam : Option Value → Value
  | none => .vNull
  | some v => v

/-- Parse a decimal string (optional sign, digits, optional fraction) as a
mantissa/scale pair denoting m / 10^e; `none` when the string is not of
that shape. -/
def parseDec (s : String) : Option (Int × Nat) :=
  let sgn : Int := match s.data with
    | '-' :: _ => -1
    | _ => 1
  match splitOnChar '.' (stripSign s.data) with
  | [a] =>
    if !a.isEmpty && a.all Char.isDigit then some (sgn * (digitsToNat a : Int), 0) else none
  | [a, b] =>
    if !a.isEmpty && a.all Char.isDigit && !b.isEmpty && b.all Char.isDigit then
      some (sgn * ((digitsToNat a * 10 ^ b.length + digitsToNat b : Nat) : Int), b.length)
    else none
  | _ => none

/-- Numeric interpretation of a value in a SQL comparison against the
numeric ord_no column: numbers are themselves, strings are coerced to a
number (0 when unparseable, as MySQL does), NULL has no numeric value. -/
def numVal : Value → Option (Int × Nat)
  | .vNum m e => some (m, e)
  | .vStr s => some ((parseDec s).getD (0, 0))
  | .vNull => none

/-- Equality of two decimal mantissa/scale pairs as rational numbers, by
cross multiplication. -/
def decPairEq (a b : Int × Nat) : Bool :=
  a.1 * (10 : Int) ^ b.2 == b.1 * (10 : Int) ^ a.2

/-- SQL equality `ord_no = ?` between a stored value and a bound
parameter: numeric comparison after coercion; a NULL on either side never
matches. -/
def sqlEqNum (a b : Value) : Bool :=
  match numVal a, numVal b with
  | some x, some y => decPairEq x y
  | _, _ => false

/-- Whether a stored order row is matched by `WHERE ord_no = ?` with the
path parameter (a string) bound. -/
def ordNoMatches (id : String) (r : OrderRow) : Bool :=
  sqlEqNum r.ord_no (.vStr id)

/-- The order row written by INSERT / full UPDATE from a request body. -/
def rowOfBody (b : OrderBody) : OrderRow :=
  { ord_no := toSqlParam b.ord_no
    purch_amt := toSqlParam b.purch_amt
    ord_date := toSqlParam b.ord_date
    customer_id := toSqlParam b.customer_id }

def usersSql : String := "SELECT * FROM customer LIMIT 10"

def ordersSql : String := "SELECT * FROM orders"

def selOrderSql : String := "SELECT * FROM orders WHERE ord_no = ?"

def insertSql : String := "INSERT INTO orders (ord_no, purch_amt, ord_date, customer_id) VALUES (?, ?, ?, ?)"

def patchSql : String := "UPDATE orders SET purch_amt = ? WHERE ord_no = ?"

def putSql : String := "UPDATE orders SET ord_no = ?, purch_amt = ?, ord_date = ?, customer_id = ? WHERE ord_no = ?"

def deleteSql : String := "DELETE FROM orders WHERE ord_no = ?"

/-- Handler of GET /users (app.js lines 54-66): acquire a connection, run
the bounded SELECT over the customer table, respond with the rows; on any
failure respond 500 with the error text; finally release the connection
when one was acquired. -/
def getUsers (beh : DbBehavior) (db : DB) : DB × List Event :=
  if beh.acquireOk then
    if beh.queryOk then
      (db, [.acquire, .query usersSql [], .respond 200 (.custRows (db.customers.take 10)), .release])
    else
      (db, [.acquire, .query usersSql [], .respond 500 (.errText beh.errText), .release])
  else
    (db, [.respond 500 (.errText beh.errText)])

/-- Handler of GET /orders (app.js lines 77-89): SELECT all order rows. -/
def getOrders (beh : DbBehavior) (db : DB) : DB × List Event :=
  if beh.acquireOk then
    if beh.queryOk then
      (db, [.acquire, .query ordersSql [], .respond 200 (.rows db.orders), .release])
    else
      (db, [.acquire, .query ordersSql [], .respond 500 (.errText beh.errText), .release])
  else
    (db, [.respond 500 (.errText beh.errText)])

/-- Handler of GET /orders/:id (app.js lines 105-121): SELECT by ord_no
with the path parameter bound; first matching row when any, else 404
with the fixed not-found message. -/
def getOrderById (id : String) (beh : DbBehavior) (db : DB) : DB × List Event :=
  if beh.acquireOk then
    if beh.queryOk then
      match db.orders.filter (ordNoMatches id) with
      | r :: _ =>
        (db, [.acquire, .query selOrderSql [.vStr id], .respond 200 (.row r), .release])
      | [] =>
        (db, [.acquire, .query selOrderSql [.vStr id], .respond 404 (.msg "Order not found"), .release])
    else
      (db, [.acquire, .query selOrderSql [.vStr id], .respond 500 (.errText beh.errText), .release])
  else
    (db, [.respond 500 (.errText beh.errText)])

/-- Handler of POST /orders (app.js lines 147-173): validate the four
fields; on any violation respond 400 with the violation list before any
pool access; else INSERT the row and respond 201 echoing result.insertId.
The INSERT supplies every column explicitly, so the statement generates no
auto-increment value and the OK packet carries insertId 0. -/
def postOrders (b : OrderBody) (beh : DbBehavior) (db : DB) : DB × List Event :=
  match postValidation b with
  | _ :: _ => (db, [.respond 400 (.errList (postValidation b))])
  | [] =>
    if beh.acquireOk then
      if beh.queryOk then
        ({ db with orders := db.orders ++ [rowOfBody b] },
         [.acquire,
          .query insertSql [toSqlParam b.ord_no, toSqlParam b.purch_amt, toSqlParam b.ord_date, toSqlParam b.customer_id],
          .respond 201 (.msgWithId "Order created" 0), .release])
      else
        (db,
         [.acquire,
          .query insertSql [toSqlParam b.ord_no, toSqlParam b.purch_amt, toSqlParam b.ord_date, toSqlParam b.customer_id],
          .respond 500 (.errText beh.errText), .release])
    else
      (db, [.respond 500 (.errText beh.errText)])

/-- Handler of PATCH /orders/:id (app.js lines 198-221): purch_amt is
optional but must be a float when present; the UPDATE binds the body's
purch_amt (NULL when absent) and the path id, and the handler responds 200
with no row-count check. -/
def patchOrder (id : String) (purch_amt : Option Value) (beh : DbBehavior) (db : DB) : DB × List Event :=
  match patchValidation purch_amt with
  | _ :: _ => (db, [.respond 400 (.errList (patchValidation purch_amt))])
  | [] =>
    if beh.acquireOk then
      if beh.queryOk then
        ({ db with orders := db.orders.map (fun r =>
            if ordNoMatches id r then { r with purch_amt := toSqlParam purch_amt } else r) },
         [.acquire, .query patchSql [toSqlParam purch_amt, .vStr id],
          .respond 200 (.msg "Order updated"), .release])
      else
        (db, [.acquire, .query patchSql [toSqlParam purch_amt, .vStr id],
              .respond 500 (.errText beh.errText), .release])
    else
      (db, [.respond 500 (.errText beh.errText)])

/-- Handler of PUT /orders/:id (app.js lines 252-278): same validation as
POST; the UPDATE sets all four columns (including ord_no, from the body,
with no comparison against the path id) on every row whose ord_no equals
the path id, and the handler responds 200 with no row-count check. -/
def putOrder (id : String) (b : OrderBody) (beh : DbBehavior) (db : DB) : DB × List Event :=
  match postValidation b with
  | _ :: _ => (db, [.respond 400 (.errList (postValidation b))])
  | [] =>
    if beh.acquireOk then
      if beh.queryOk then
        ({ db with orders := db.orders.map (fun r =>
            if ordNoMatches id r then rowOfBody b else r) },
         [.acquire,
          .query putSql [toSqlParam b.ord_no, toSqlParam b.purch_amt, toSqlParam b.ord_date, toSqlParam b.customer_id, .vStr id],
          .respond 200 (.msg "Order replaced"), .release])
      else
        (db,
         [.acquire,
          .query putSql [toSqlParam b.ord_no, toSqlParam b.purch_amt, toSqlParam b.ord_date, toSqlParam b.customer_id, .vStr id],
          .respond 500 (.errText beh.errText), .release])
    else
      (db, [.respond 500 (.errText beh.errText)])

/-- Handler of DELETE /orders/:id (app.js lines 294-306): DELETE by
ord_no, respond 200 regardless of how many rows were removed. -/
def deleteOrder (id : String) (beh : DbBehavior) (db : DB) : DB × List Event :=
  if beh.acquireOk then
    if beh.queryOk then
      ({ db with orders := db.orders.filter (fun r => !(ordNoMatches id r)) },
       [.acquire, .query deleteSql [.vStr id], .respond 200 (.msg "Order deleted"), .release])
    else
      (db, [.acquire, .query deleteSql [.vStr id], .respond 500 (.errText beh.errText), .release])
  else
    (db, [.respond 500 (.errText beh.errText)])

/-- The Lambda invocation event of the request-echo function: the
queryStringParameters field is null (`none`) when the request carries no
query string at all, otherwise an association list of parameters. -/
structure LambdaEvent where
  queryStringParameters : Option (List (String × String))
deriving DecidableEq

/-- The response object built by the echo function; its body is
JSON.stringify of an object whose single message property is the string
recorded here. -/
structure EchoResponse where
  statusCode : Nat
  message : String
deriving DecidableEq

/-- The request-echo function (exports.handler of the Lambda source):
reads event.queryStringParameters.keyword — a TypeError (rejected promise)
when queryStringParameters is null — falls back to the placeholder when
the keyword is falsy (absent or empty), and returns a 200 response whose
message embeds the keyword in the fixed greeting. -/
def echoHandler (event : LambdaEvent) : Except String EchoResponse :=
  match event.queryStringParameters with
  | none => .error "TypeError: cannot read property keyword of null"
  | some qs =>
    let keyword :=
      match qs.lookup "keyword" with
      | some s => if s = "" then "no keyword provided" else s
      | none => "no keyword provided"
    .ok { statusCode := 200, message := "Tanvi says " ++ keyword }

/-- Event classifiers for trace properties. -/
def isAcquire : Event → Bool
  | .acquire => true
  | _ => false

def isRelease : Event → Bool
  | .release => true
  | _ => false

def isRespond : Event → Bool
  | .respond _ _ => true
  | _ => false

/-- The SQL texts submitted to the database during one execution. -/
def queryTextsOf : List Event → List String
  | [] => []
  | .query t _ :: rest => t :: queryTextsOf rest
  | _ :: rest => queryTextsOf rest

/-- The status and body of the (first) HTTP response in a trace. -/
def firstRespond : List Event → Option (Nat × RespBody)
  | [] => none
  | .respond s b :: _ => some (s, b)
  | _ :: rest => firstRespond rest

/-- The status of the response sent in a trace. -/
def respStatus (evs : List Event) : Option Nat :=
  (firstRespond evs).map Prod.fst

/-- Number of successful connection acquisitions in a trace. -/
def countAcquires : List Event → Nat
  | [] => 0
  | .acquire :: rest => countAcquires rest + 1
  | _ :: rest => countAcquires rest

/-- Number of connection releases (conn.end()) in a trace. -/
def countReleases : List Event → Nat
  | [] => 0
  | .release :: rest => countReleases rest + 1
  | _ :: rest => countReleases rest

/-- Number of HTTP responses sent in a trace. -/
def countResponds : List Event → Nat
  | [] => 0
  | .respond _ _ :: rest => countResponds rest + 1
  | _ :: rest => countResponds rest

/-- True when no response is sent after any connection release, i.e.
every response precedes every release. -/
def respondsBeforeReleases : List Event → Bool
  | [] => true
  | e :: rest =>
    (if isRelease e then rest.all fun x => !isRespond x else true) && respondsBeforeReleases rest

/-- True when some release event occurs strictly before some response
event: the reading of the spec sentence that the connection is released
before the response is sent. -/
def releaseBeforeRespond : List Event → Bool
  | [] => false
  | e :: rest => (isRelease e && rest.any isRespond) || releaseBeforeRespond rest

/-- Structural invariant of one handler execution: one release per
acquire, at most one acquire, exactly one response, and the response is
sent before any release. -/
def traceInv (evs : List Event) : Prop :=
  countReleases evs = countAcquires evs ∧
  countAcquires evs ≤ 1 ∧
  countResponds evs = 1 ∧
  respondsBeforeReleases evs = true

lemma postOrders_invalid (b : OrderBody) (beh : DbBehavior) (db : DB)
    (h : postValidation b ≠ []) :
    postOrders b beh db = (db, [.respond 400 (.errList (postValidation b))]) := by
  cases hl : postValidation b with
  | nil => exact absurd hl h
  | cons x xs => simp [postOrders, hl]

lemma patchOrder_invalid (id : String) (amt : Option Value) (beh : DbBehavior) (db : DB)
    (h : patchValidation amt ≠ []) :
    patchOrder id amt beh db = (db, [.respond 400 (.errList (patchValidation amt))]) := by
  cases hl : patchValidation amt with
  | nil => exact absurd hl h
  | cons x xs => simp [patchOrder, hl]

lemma putOrder_invalid (id : String) (b : OrderBody) (beh : DbBehavior) (db : DB)
    (h : postValidation b ≠ []) :
    putOrder id b beh db = (db, [.respond 400 (.errList (postValidation b))]) := by
  cases hl : postValidation b with
  | nil => exact absurd hl h
  | cons x xs => simp [putOrder, hl]

/-- Claim C5: for every id for which the SELECT by ord_no returns zero
rows, GET /orders/:id responds exactly 404 with body message Order not
found; when at least one row matches it responds 200 with the first
matching row. -/
theorem C5_get_order_not_found (id : String) (beh : DbBehavior) (db : DB)
    (hA : beh.acquireOk = true) (hQ : beh.queryOk = true) :
    (db.orders.filter (ordNoMatches id) = [] →
      firstRespond (getOrderById id beh db).2 = some (404, .msg "Order not found")) ∧
    (∀ r rest, db.orders.filter (ordNoMatches id) = r :: rest →
      firstRespond (getOrderById id beh db).2 = some (200, .row r)) := by
  constructor
  · intro hf
    simp [getOrderById, hA, hQ, hf, firstRespond]
  · intro r rest hf
    simp [getOrderById, hA, hQ, hf, firstRespond]

/-- Witness for C5: on an empty orders table GET /orders/7 responds 404
Order not found; on a table holding order 5 GET /orders/5 responds 200
with that row. -/
theorem C5_get_order_not_found_witness :
    firstRespond (getOrderById "7" ⟨true, true, "e"⟩ ⟨[], []⟩).2
      = some (404, .msg "Order not found") ∧
    firstRespond (getOrderById "5" ⟨true, true, "e"⟩
        ⟨[⟨.vNum 5 0, .vNum 105 1, .vStr "2024-01-01", .vStr "C001"⟩], []⟩).2
      = some (200, .row ⟨.vNum 5 0, .vNum 105 1, .vStr "2024-01-01", .vStr "C001"⟩) := by
  constructor
  · exact (C5_get_order_not_found "7" ⟨true, true, "e"⟩ ⟨[], []⟩ rfl rfl).1 (by decide)
  · exact (C5_get_order_not_found "5" ⟨true, true, "e"⟩
      ⟨[⟨.vNum 5 0, .vNum 105 1, .vStr "2024-01-01", .vStr "C001"⟩], []⟩ rfl rfl).2
      ⟨.vNum 5 0, .vNum 105 1, .vStr "2024-01-01", .vStr "C001"⟩ [] (by decide)

/-- Claim C6: PATCH /orders/:id with a well-formed body responds 200 with
message Order updated even when the UPDATE matches zero rows (the
handler performs no row-count check), and no execution of this handler
ever responds 404. -/
theorem C6_patch_zero_rows_ok :
    (∀ (id : String) (amt : Option Value) (beh : DbBehavior) (db : DB),
      patchValidation amt = [] → beh.acquireOk = true → beh.queryOk = true →
      firstRespond (patchOrder id amt beh db).2 = some (200, .msg "Order updated")) ∧
    (∀ (id : String) (amt : Option Value) (beh : DbBehavior) (db : DB),
      respStatus (patchOrder id amt beh db).2 ≠ some 404) := by
  constructor
  · intro id amt beh db hv hA hQ
    simp [patchOrder, hv, hA, hQ, firstRespond]
  · intro id amt beh db
    rcases beh with ⟨a, q, t⟩
    cases hv : patchValidation amt <;> cases a <;> cases q <;>
      simp [patchOrder, hv, respStatus, firstRespond]

/-- Witness for C6: PATCH /orders/99 on an empty orders table (zero rows
matched) responds 200 Order updated and in particular not 404. -/
theorem C6_patch_zero_rows_ok_witness :
    firstRespond (patchOrder "99" (some (.vNum 200 0)) ⟨true, true, "e"⟩ ⟨[], []⟩).2
      = some (200, .msg "Order updated") ∧
    respStatus (patchOrder "99" (some (.vNum 200 0)) ⟨true, true, "e"⟩ ⟨[], []⟩).2 ≠ some 404 := by
  constructor
  · exact C6_patch_zero_rows_ok.1 "99" (some (.vNum 200 0)) ⟨true, true, "e"⟩ ⟨[], []⟩ (by decide) rfl rfl
  · exact C6_patch_zero_rows_ok.2 "99" (some (.vNum 200 0)) ⟨true, true, "e"⟩ ⟨[], []⟩

/-- Claim C7: DELETE /orders/:id is idempotent: absent storage failure,
two successive calls both respond 200 and the second call leaves the
database in the state the first call produced. -/
theorem C7_delete_idempotent (id : String) (beh : DbBehavior) (db : DB)
    (hA : beh.acquireOk = true) (hQ : beh.queryOk = true) :
    respStatus (deleteOrder id beh db).2 = some 200 ∧
    respStatus (deleteOrder id beh (deleteOrder id beh db).1).2 = some 200 ∧
    (deleteOrder id beh (deleteOrder id beh db).1).1 = (deleteOrder id beh db).1 := by
  refine ⟨?_, ?_, ?_⟩
  · simp [deleteOrder, hA, hQ, respStatus, firstRespond]
  · simp [deleteOrder, hA, hQ, respStatus, firstRespond]
  · simp [deleteOrder, hA, hQ, List.filter_filter]

/-- Witness for C7: deleting order 5 twice from a one-row table responds
200 both times and the second call does not change the state left by the
first. -/
theorem C7_delete_idempotent_witness :
    respStatus (deleteOrder "5" ⟨true, true, "e"⟩
      ⟨[⟨.vNum 5 0, .vNum 105 1, .vStr "2024-01-01", .vStr "C001"⟩], []⟩).2 = some 200 ∧
    respStatus (deleteOrder "5" ⟨true, true, "e"⟩
      (deleteOrder "5" ⟨true, true, "e"⟩
        ⟨[⟨.vNum 5 0, .vNum 105 1, .vStr "2024-01-01", .vStr "C001"⟩], []⟩).1).2 = some 200 ∧
    (deleteOrder "5" ⟨true, true, "e"⟩
      (deleteOrder "5" ⟨true, true, "e"⟩
        ⟨[⟨.vNum 5 0, .vNum 105 1, .vStr "2024-01-01", .vStr "C001"⟩], []⟩).1).1
      = (deleteOrder "5" ⟨true, true, "e"⟩
        ⟨[⟨.vNum 5 0, .vNum 105 1, .vStr "2024-01-01", .vStr "C001"⟩], []⟩).1 :=
  C7_delete_idempotent "5" ⟨true, true, "e"⟩
    ⟨[⟨.vNum 5 0, .vNum 105 1, .vStr "2024-01-01", .vStr "C001"⟩], []⟩ rfl rfl

/-- Claim C10: a PATCH /orders/:id whose body omits purch_amt passes
validation (the rule is optional), still runs the UPDATE binding NULL
(the driver rendering of the undefined field) for purch_amt, and every
matched row has its purch_amt column overwritten with NULL. -/
theorem C10_patch_absent_sets_null (id : String) (beh : DbBehavior) (db : DB)
    (hA : beh.acquireOk = true) (hQ : beh.queryOk = true) :
    patchValidation none = [] ∧
    (patchOrder id none beh db).2 =
      [.acquire, .query patchSql [.vNull, .vStr id],
       .respond 200 (.msg "Order updated"), .release] ∧
    (patchOrder id none beh db).1.orders =
      db.orders.map (fun r =>
        if ordNoMatches id r then { r with purch_amt := .vNull } else r) := by
  refine ⟨rfl, ?_, ?_⟩
  · simp [patchOrder, patchValidation, hA, hQ, toSqlParam]
  · simp [patchOrder, patchValidation, hA, hQ, toSqlParam]

/-- Witness for C10: patching order 5 with an empty body sets the stored
purch_amt of the matching row to NULL. -/
theorem C10_patch_absent_sets_null_witness :
    patchValidation none = [] ∧
    (patchOrder "5" none ⟨true, true, "e"⟩
      ⟨[⟨.vNum 5 0, .vNum 105 1, .vStr "2024-01-01", .vStr "C001"⟩], []⟩).2 =
      [.acquire, .query patchSql [.vNull, .vStr "5"],
       .respond 200 (.msg "Order updated"), .release] ∧
    (patchOrder "5" none ⟨true, true, "e"⟩
      ⟨[⟨.vNum 5 0, .vNum 105 1, .vStr "2024-01-01", .vStr "C001"⟩], []⟩).1.orders =
      [⟨.vNum 5 0, .vNum 105 1, .vStr "2024-01-01", .vStr "C001"⟩].map (fun r =>
        if ordNoMatches "5" r then { r with purch_amt := .vNull } else r) :=
  C10_patch_absent_sets_null "5" ⟨true, true, "e"⟩
    ⟨[⟨.vNum 5 0, .vNum 105 1, .vStr "2024-01-01", .vStr "C001"⟩], []⟩ rfl rfl

/-- Counterexample to C1 as stated: POSTing the valid payload
ord_no 1001, purch_amt 150.5, ord_date 2024-01-01, customer_id C001 to an
empty table responds 201 with orderId 0 (the INSERT supplies every column
explicitly, so no key is generated), and GET /orders/0 with that returned
identifier responds 404, not 200 with the submitted row. -/
theorem C1_counterexample :
    firstRespond (postOrders
      ⟨some (.vNum 1001 0), some (.vNum 1505 1), some (.vStr "2024-01-01"), some (.vStr "C001")⟩
      ⟨true, true, "e"⟩ ⟨[], []⟩).2 = some (201, .msgWithId "Order created" 0) ∧
    respStatus (getOrderById "0" ⟨true, true, "e"⟩
      (postOrders
        ⟨some (.vNum 1001 0), some (.vNum 1505 1), some (.vStr "2024-01-01"), some (.vStr "C001")⟩
        ⟨true, true, "e"⟩ ⟨[], []⟩).1).2 = some 404 := by
  decide

/-- Claim C1 as amended: for every valid payload, POST /orders responds
201 (with orderId 0), and a GET /orders/:id whose path id denotes the
submitted ord_no — not the returned orderId — finds the inserted row with
all four fields equal to the submitted payload, provided no earlier row
already had that ord_no. -/
theorem C1_roundtrip_via_ord_no (b : OrderBody) (id : String) (beh : DbBehavior) (db : DB)
    (hv : postValidation b = []) (hA : beh.acquireOk = true) (hQ : beh.queryOk = true)
    (hid : ordNoMatches id (rowOfBody b) = true)
    (hnone : db.orders.filter (ordNoMatches id) = []) :
    firstRespond (postOrders b beh db).2 = some (201, .msgWithId "Order created" 0) ∧
    firstRespond (getOrderById id beh (postOrders b beh db).1).2
      = some (200, .row (rowOfBody b)) := by
  constructor
  · simp [postOrders, hv, hA, hQ, firstRespond]
  · simp [postOrders, getOrderById, hv, hA, hQ, List.filter_append, hnone, hid, firstRespond]

/-- Witness for the amended C1: the concrete payload of the spec scenario
round-trips through POST /orders and GET /orders/1001. -/
theorem C1_roundtrip_via_ord_no_witness :
    firstRespond (postOrders
      ⟨some (.vNum 1001 0), some (.vNum 1505 1), some (.vStr "2024-01-01"), some (.vStr "C001")⟩
      ⟨true, true, "e"⟩ ⟨[], []⟩).2 = some (201, .msgWithId "Order created" 0) ∧
    firstRespond (getOrderById "1001" ⟨true, true, "e"⟩
      (postOrders
        ⟨some (.vNum 1001 0), some (.vNum 1505 1), some (.vStr "2024-01-01"), some (.vStr "C001")⟩
        ⟨true, true, "e"⟩ ⟨[], []⟩).1).2
      = some (200, .row (rowOfBody
        ⟨some (.vNum 1001 0), some (.vNum 1505 1), some (.vStr "2024-01-01"), some (.vStr "C001")⟩)) :=
  C1_roundtrip_via_ord_no
    ⟨some (.vNum 1001 0), some (.vNum 1505 1), some (.vStr "2024-01-01"), some (.vStr "C001")⟩
    "1001" ⟨true, true, "e"⟩ ⟨[], []⟩ (by decide) rfl rfl (by decide) (by decide)

/-- Claim C4: a POST /orders payload missing customer_id, or carrying a
non-numeric ord_no, is rejected with 400 whose violation list names the
offending field, before any pool access: the trace holds no acquire and
no statement submission. -/
theorem C4_post_validation_rejects :
    (∀ (b : OrderBody) (beh : DbBehavior) (db : DB), b.customer_id = none →
      firstRespond (postOrders b beh db).2 = some (400, .errList (postValidation b)) ∧
      "customer_id" ∈ (postValidation b).map Prod.fst ∧
      countAcquires (postOrders b beh db).2 = 0 ∧
      queryTextsOf (postOrders b beh db).2 = []) ∧
    (∀ (b : OrderBody) (beh : DbBehavior) (db : DB), isNumericV b.ord_no = false →
      firstRespond (postOrders b beh db).2 = some (400, .errList (postValidation b)) ∧
      "ord_no" ∈ (postValidation b).map Prod.fst ∧
      countAcquires (postOrders b beh db).2 = 0 ∧
      queryTextsOf (postOrders b beh db).2 = []) := by
  constructor
  · intro b beh db hc
    have hne : notEmptyV b.customer_id = false := by rw [hc]; rfl
    have hmem : "customer_id" ∈ (postValidation b).map Prod.fst := by
      simp [postValidation, hne]
    have hnil : postValidation b ≠ [] := by
      intro h
      rw [h] at hmem
      simp at hmem
    rw [postOrders_invalid b beh db hnil]
    exact ⟨rfl, hmem, rfl, rfl⟩
  · intro b beh db hn
    have hmem : "ord_no" ∈ (postValidation b).map Prod.fst := by
      simp [postValidation, hn]
    have hnil : postValidation b ≠ [] := by
      intro h
      rw [h] at hmem
      simp at hmem
    rw [postOrders_invalid b beh db hnil]
    exact ⟨rfl, hmem, rfl, rfl⟩

/-- Witness for C4: a payload without customer_id and a payload whose
ord_no is the string abc are both rejected with 400, the violation lists
name the fields, and no connection is acquired and no statement
submitted. -/
theorem C4_post_validation_rejects_witness :
    (firstRespond (postOrders
        ⟨some (.vNum 1001 0), some (.vNum 1505 1), some (.vStr "2024-01-01"), none⟩
        ⟨true, true, "e"⟩ ⟨[], []⟩).2
      = some (400, .errList (postValidation
        ⟨some (.vNum 1001 0), some (.vNum 1505 1), some (.vStr "2024-01-01"), none⟩)) ∧
      "customer_id" ∈ (postValidation
        ⟨some (.vNum 1001 0), some (.vNum 1505 1), some (.vStr "2024-01-01"), none⟩).map Prod.fst ∧
      countAcquires (postOrders
        ⟨some (.vNum 1001 0), some (.vNum 1505 1), some (.vStr "2024-01-01"), none⟩
        ⟨true, true, "e"⟩ ⟨[], []⟩).2 = 0 ∧
      queryTextsOf (postOrders
        ⟨some (.vNum 1001 0), some (.vNum 1505 1), some (.vStr "2024-01-01"), none⟩
        ⟨true, true, "e"⟩ ⟨[], []⟩).2 = []) ∧
    (firstRespond (postOrders
        ⟨some (.vStr "abc"), some (.vNum 1505 1), some (.vStr "2024-01-01"), some (.vStr "C001")⟩
        ⟨true, true, "e"⟩ ⟨[], []⟩).2
      = some (400, .errList (postValidation
        ⟨some (.vStr "abc"), some (.vNum 1505 1), some (.vStr "2024-01-01"), some (.vStr "C001")⟩)) ∧
      "ord_no" ∈ (postValidation
        ⟨some (.vStr "abc"), some (.vNum 1505 1), some (.vStr "2024-01-01"), some (.vStr "C001")⟩).map Prod.fst ∧
      countAcquires (postOrders
        ⟨some (.vStr "abc"), some (.vNum 1505 1), some (.vStr "2024-01-01"), some (.vStr "C001")⟩
        ⟨true, true, "e"⟩ ⟨[], []⟩).2 = 0 ∧
      queryTextsOf (postOrders
        ⟨some (.vStr "abc"), some (.vNum 1505 1), some (.vStr "2024-01-01"), some (.vStr "C001")⟩
        ⟨true, true, "e"⟩ ⟨[], []⟩).2 = []) :=
  ⟨C4_post_validation_rejects.1
      ⟨some (.vNum 1001 0), some (.vNum 1505 1), some (.vStr "2024-01-01"), none⟩
      ⟨true, true, "e"⟩ ⟨[], []⟩ rfl,
   C4_post_validation_rejects.2
      ⟨some (.vStr "abc"), some (.vNum 1505 1), some (.vStr "2024-01-01"), some (.vStr "C001")⟩
      ⟨true, true, "e"⟩ ⟨[], []⟩ (by decide)⟩

/-- Claim C8: a valid PUT /orders/:id rewrites, in every row whose ord_no
equals the path id, all four columns to the body values — including
ord_no, taken from the body with no equality check against the path id —
and responds 200 Order replaced even when zero rows matched. -/
theorem C8_put_replaces_all_columns (id : String) (b : OrderBody) (beh : DbBehavior) (db : DB)
    (hv : postValidation b = []) (hA : beh.acquireOk = true) (hQ : beh.queryOk = true) :
    (putOrder id b beh db).1.orders =
      db.orders.map (fun r => if ordNoMatches id r then rowOfBody b else r) ∧
    firstRespond (putOrder id b beh db).2 = some (200, .msg "Order replaced") := by
  constructor
  · simp [putOrder, hv, hA, hQ]
  · simp [putOrder, hv, hA, hQ, firstRespond]

/-- Witness for C8: PUT /orders/5 with body ord_no 6 re-keys the stored
row to ord_no 6 (no equality check between body ord_no and path id) and
responds 200; the same request against an empty table also responds 200. -/
theorem C8_put_replaces_all_columns_witness :
    ((putOrder "5"
        ⟨some (.vNum 6 0), some (.vNum 2000 1), some (.vStr "2024-02-02"), some (.vStr "C002")⟩
        ⟨true, true, "e"⟩
        ⟨[⟨.vNum 5 0, .vNum 105 1, .vStr "2024-01-01", .vStr "C001"⟩], []⟩).1.orders =
      [⟨.vNum 5 0, .vNum 105 1, .vStr "2024-01-01", .vStr "C001"⟩].map (fun r =>
        if ordNoMatches "5" r then rowOfBody
          ⟨some (.vNum 6 0), some (.vNum 2000 1), some (.vStr "2024-02-02"), some (.vStr "C002")⟩
        else r) ∧
      firstRespond (putOrder "5"
        ⟨some (.vNum 6 0), some (.vNum 2000 1), some (.vStr "2024-02-02"), some (.vStr "C002")⟩
        ⟨true, true, "e"⟩
        ⟨[⟨.vNum 5 0, .vNum 105 1, .vStr "2024-01-01", .vStr "C001"⟩], []⟩).2
        = some (200, .msg "Order replaced")) ∧
    ((putOrder "5"
        ⟨some (.vNum 6 0), some (.vNum 2000 1), some (.vStr "2024-02-02"), some (.vStr "C002")⟩
        ⟨true, true, "e"⟩ ⟨[], []⟩).1.orders =
      ([] : List OrderRow).map (fun r =>
        if ordNoMatches "5" r then rowOfBody
          ⟨some (.vNum 6 0), some (.vNum 2000 1), some (.vStr "2024-02-02"), some (.vStr "C002")⟩
        else r) ∧
      firstRespond (putOrder "5"
        ⟨some (.vNum 6 0), some (.vNum 2000 1), some (.vStr "2024-02-02"), some (.vStr "C002")⟩
        ⟨true, true, "e"⟩ ⟨[], []⟩).2 = some (200, .msg "Order replaced")) :=
  ⟨C8_put_replaces_all_columns "5"
      ⟨some (.vNum 6 0), some (.vNum 2000 1), some (.vStr "2024-02-02"), some (.vStr "C002")⟩
      ⟨true, true, "e"⟩
      ⟨[⟨.vNum 5 0, .vNum 105 1, .vStr "2024-01-01", .vStr "C001"⟩], []⟩ (by decide) rfl rfl,
   C8_put_replaces_all_columns "5"
      ⟨some (.vNum 6 0), some (.vNum 2000 1), some (.vStr "2024-02-02"), some (.vStr "C002")⟩
      ⟨true, true, "e"⟩ ⟨[], []⟩ (by decide) rfl rfl⟩

/-- Claim C2: for every handler and every request, each SQL text
submitted to the database is the handler's fixed constant string,
independent of path parameters and body; request data reaches the
database only through the bound parameter list. -/
theorem C2_sql_text_constant :
    (∀ (beh : DbBehavior) (db : DB),
      queryTextsOf (getUsers beh db).2 = [] ∨
      queryTextsOf (getUsers beh db).2 = [usersSql]) ∧
    (∀ (beh : DbBehavior) (db : DB),
      queryTextsOf (getOrders beh db).2 = [] ∨
      queryTextsOf (getOrders beh db).2 = [ordersSql]) ∧
    (∀ (id : String) (beh : DbBehavior) (db : DB),
      queryTextsOf (getOrderById id beh db).2 = [] ∨
      queryTextsOf (getOrderById id beh db).2 = [selOrderSql]) ∧
    (∀ (b : OrderBody) (beh : DbBehavior) (db : DB),
      queryTextsOf (postOrders b beh db).2 = [] ∨
      queryTextsOf (postOrders b beh db).2 = [insertSql]) ∧
    (∀ (id : String) (amt : Option Value) (beh : DbBehavior) (db : DB),
      queryTextsOf (patchOrder id amt beh db).2 = [] ∨
      queryTextsOf (patchOrder id amt beh db).2 = [patchSql]) ∧
    (∀ (id : String) (b : OrderBody) (beh : DbBehavior) (db : DB),
      queryTextsOf (putOrder id b beh db).2 = [] ∨
      queryTextsOf (putOrder id b beh db).2 = [putSql]) ∧
    (∀ (id : String) (beh : DbBehavior) (db : DB),
      queryTextsOf (deleteOrder id beh db).2 = [] ∨
      queryTextsOf (deleteOrder id beh db).2 = [deleteSql]) := by
  refine ⟨?_, ?_, ?_, ?_, ?_, ?_, ?_⟩
  · intro beh db
    rcases beh with ⟨a, q, t⟩
    cases a <;> cases q <;> simp [getUsers, queryTextsOf]
  · intro beh db
    rcases beh with ⟨a, q, t⟩
    cases a <;> cases q <;> simp [getOrders, queryTextsOf]
  · intro id beh db
    rcases beh with ⟨a, q, t⟩
    cases a <;> cases q <;>
      cases hf : db.orders.filter (ordNoMatches id) <;>
      simp [getOrderById, hf, queryTextsOf]
  · intro b beh db
    rcases beh with ⟨a, q, t⟩
    cases hv : postValidation b <;> cases a <;> cases q <;>
      simp [postOrders, hv, queryTextsOf]
  · intro id amt beh db
    rcases beh with ⟨a, q, t⟩
    cases hv : patchValidation amt <;> cases a <;> cases q <;>
      simp [patchOrder, hv, queryTextsOf]
  · intro id b beh db
    rcases beh with ⟨a, q, t⟩
    cases hv : postValidation b <;> cases a <;> cases q <;>
      simp [putOrder, hv, queryTextsOf]
  · intro id beh db
    rcases beh with ⟨a, q, t⟩
    cases a <;> cases q <;> simp [deleteOrder, queryTextsOf]

/-- Counterexample to C3 as stated: when the statement of GET /users
fails, the handler acquires a connection, sends the 500 response inside
the catch block, and only then releases the connection in the finally
block — the release does not precede the response. -/
theorem C3_counterexample :
    countAcquires (getUsers ⟨true, false, "boom"⟩ ⟨[], []⟩).2 = 1 ∧
    respStatus (getUsers ⟨true, false, "boom"⟩ ⟨[], []⟩).2 = some 500 ∧
    releaseBeforeRespond (getUsers ⟨true, false, "boom"⟩ ⟨[], []⟩).2 = false := by
  decide

/-- Claim C3 as amended: every handler execution, under every database
behaviour, releases each acquired connection exactly once (and acquires
at most once), sends exactly one response (failures are caught at the
handler boundary), and the release happens after the response is sent,
not before. -/
theorem C3_release_once_after_response :
    (∀ (beh : DbBehavior) (db : DB), traceInv (getUsers beh db).2) ∧
    (∀ (beh : DbBehavior) (db : DB), traceInv (getOrders beh db).2) ∧
    (∀ (id : String) (beh : DbBehavior) (db : DB), traceInv (getOrderById id beh db).2) ∧
    (∀ (b : OrderBody) (beh : DbBehavior) (db : DB), traceInv (postOrders b beh db).2) ∧
    (∀ (id : String) (amt : Option Value) (beh : DbBehavior) (db : DB),
      traceInv (patchOrder id amt beh db).2) ∧
    (∀ (id : String) (b : OrderBody) (beh : DbBehavior) (db : DB),
      traceInv (putOrder id b beh db).2) ∧
    (∀ (id : String) (beh : DbBehavior) (db : DB), traceInv (deleteOrder id beh db).2) := by
  refine ⟨?_, ?_, ?_, ?_, ?_, ?_, ?_⟩
  · intro beh db
    rcases beh with ⟨a, q, t⟩
    cases a <;> cases q <;>
      simp [getUsers, traceInv, countAcquires, countReleases, countResponds,
        respondsBeforeReleases, isRelease, isRespond]
  · intro beh db
    rcases beh with ⟨a, q, t⟩
    cases a <;> cases q <;>
      simp [getOrders, traceInv, countAcquires, countReleases, countResponds,
        respondsBeforeReleases, isRelease, isRespond]
  · intro id beh db
    rcases beh with ⟨a, q, t⟩
    cases a <;> cases q <;>
      cases hf : db.orders.filter (ordNoMatches id) <;>
      simp [getOrderById, hf, traceInv, countAcquires, countReleases, countResponds,
        respondsBeforeReleases, isRelease, isRespond]
  · intro b beh db
    rcases beh with ⟨a, q, t⟩
    cases hv : postValidation b <;> cases a <;> cases q <;>
      simp [postOrders, hv, traceInv, countAcquires, countReleases, countResponds,
        respondsBeforeReleases, isRelease, isRespond]
  · intro id amt beh db
    rcases beh with ⟨a, q, t⟩
    cases hv : patchValidation amt <;> cases a <;> cases q <;>
      simp [patchOrder, hv, traceInv, countAcquires, countReleases, countResponds,
        respondsBeforeReleases, isRelease, isRespond]
  · intro id b beh db
    rcases beh with ⟨a, q, t⟩
    cases hv : postValidation b <;> cases a <;> cases q <;>
      simp [putOrder, hv, traceInv, countAcquires, countReleases, countResponds,
        respondsBeforeReleases, isRelease, isRespond]
  · intro id beh db
    rcases beh with ⟨a, q, t⟩
    cases a <;> cases q <;>
      simp [deleteOrder, traceInv, countAcquires, countReleases, countResponds,
        respondsBeforeReleases, isRelease, isRespond]

/-- Counterexample to C9 as stated: invoking the echo function with an
event whose queryStringParameters is null (as delivered when the request
carries no query string at all) throws a TypeError instead of returning
a 200 response. -/
theorem C9_counterexample :
    (echoHandler ⟨none⟩).isOk = false := by
  decide

/-- Claim C9 as amended: whenever the event carries a (non-null)
queryStringParameters object, the echo function returns 200 with the
greeting embedding the keyword parameter, or the placeholder text when
the keyword is absent; with a null queryStringParameters it throws
instead. -/
theorem C9_echo_greeting (qs : List (String × String)) :
    (∃ r, echoHandler ⟨some qs⟩ = .ok r ∧ r.statusCode = 200) ∧
    (qs.lookup "keyword" = none →
      echoHandler ⟨some qs⟩ = .ok ⟨200, "Tanvi says no keyword provided"⟩) ∧
    (qs.lookup "keyword" = some "" →
      echoHandler ⟨some qs⟩ = .ok ⟨200, "Tanvi says no keyword provided"⟩) ∧
    (∀ s, qs.lookup "keyword" = some s → s ≠ "" →
      echoHandler ⟨some qs⟩ = .ok ⟨200, "Tanvi says " ++ s⟩) := by
  refine ⟨?_, ?_, ?_, ?_⟩
  · cases h : qs.lookup "keyword" with
    | none =>
      refine ⟨⟨200, "Tanvi says no keyword provided"⟩, ?_, rfl⟩
      simp [echoHandler, h]
      rfl
    | some s =>
      by_cases hs : s = ""
      · refine ⟨⟨200, "Tanvi says no keyword provided"⟩, ?_, rfl⟩
        simp [echoHandler, h, hs]
        rfl
      · refine ⟨⟨200, "Tanvi says " ++ s⟩, ?_, rfl⟩
        simp [echoHandler, h, hs]
  · intro h
    simp [echoHandler, h]
    try rfl
  · intro h
    simp [echoHandler, h]
    try rfl
  · intro s h hs
    simp [echoHandler, h, hs]

/-- Witness for the amended C9: with keyword hi the echo function greets
hi; with a query object lacking the keyword it greets the placeholder;
with an empty-string keyword it also greets the placeholder. -/
theorem C9_echo_greeting_witness :
    echoHandler ⟨some [("keyword", "hi")]⟩ = .ok ⟨200, "Tanvi says hi"⟩ ∧
    echoHandler ⟨some []⟩ = .ok ⟨200, "Tanvi says no keyword provided"⟩ ∧
    echoHandler ⟨some [("keyword", "")]⟩ = .ok ⟨200, "Tanvi says no keyword provided"⟩ :=
  ⟨(C9_echo_greeting [("keyword", "hi")]).2.2.2 "hi" rfl (by decide),
   (C9_echo_greeting []).2.1 rfl,
   (C9_echo_greeting [("keyword", "")]).2.2.1 rfl⟩

end App
